import Mathlib

/-!
Verification of the pipeline-generation, tool-selection, toggle and validation
engine of the `embedded_elt_builder` repository, as a shallow embedding of
`embedded_elt_builder/pipeline_generator.py`, `cli/toggle.py` and
`cli/validate.py`.

Modelling conventions:
- Python values observed by the code (results of `yaml.safe_load`, values
  stored into YAML documents) are modelled by the inductive type `PVal`;
  Python dicts are association lists in insertion order, `dict[k] = v`
  (replace-in-place or append) is `dictAssign`, `dict.get` is `pyGet`.
- Python exceptions that the code does not catch are modelled with
  `Except String`; an `Except.error` value means the Python function raises.
- `str.lower` / `str.upper` are modelled on the ASCII range (`lowerStr`,
  `upperStr`); every category table in the source is pure-ASCII, so the
  observable behaviour of the tool selector coincides with CPython's.
- `datetime.datetime.now().strftime("%Y-%m-%d")` is modelled by an explicit
  `today : String` argument to `generate_dagster_yaml`.
- `yaml.dump` is deterministic (`sort_keys=False` keeps insertion order), so
  equality of the modelled document structures is equivalent to byte-identity
  of the written files, and file contents parsed back by `yaml.safe_load`
  are the stored structures.
-/

/-- Model of a Python value as seen through `yaml.safe_load` / stored into
YAML documents: `None`, booleans, integers, strings, lists, dicts
(association lists in insertion order). -/
inductive PVal where
  | none
  | bool (b : Bool)
  | int (n : Int)
  | str (s : String)
  | list (xs : List PVal)
  | dict (m : List (String × PVal))

/-- First-match association-list lookup; models Python `dict` lookup
(keys are unique in dicts produced by `yaml.safe_load` and by the code). -/
def assocLookup {α : Type} (m : List (String × α)) (k : String) : Option α :=
  match m with
  | [] => Option.none
  | (k1, v) :: rest => if k1 = k then some v else assocLookup rest k

/-- Python `d[k] = v` on a dict kept as an insertion-ordered association
list: replace the value in place if the key exists, else append. -/
def dictAssign {α : Type} (m : List (String × α)) (k : String) (v : α) : List (String × α) :=
  match m with
  | [] => [(k, v)]
  | (k1, v1) :: rest => if k1 = k then (k, v) :: rest else (k1, v1) :: dictAssign rest k v

/-- Python truthiness of a `PVal` (`if x:`). -/
def truthy : PVal → Bool
  | PVal.none => false
  | PVal.bool b => b
  | PVal.int n => n != 0
  | PVal.str s => s != ""
  | PVal.list xs => !xs.isEmpty
  | PVal.dict m => !m.isEmpty

/-- Python `x.get(k, dflt)`: succeeds on dicts, raises `AttributeError`
on every other value (the source never catches that exception). -/
def pyGet (v : PVal) (k : String) (dflt : PVal) : Except String PVal :=
  match v with
  | PVal.dict m => Except.ok ((assocLookup m k).getD dflt)
  | _ => Except.error "AttributeError"

/-- ASCII lower-casing of one character, as CPython `str.lower` acts on the
ASCII range (`A`..`Z` shifted by 32, all other characters kept). -/
def lowerChar (c : Char) : Char :=
  if _h : 65 ≤ c.toNat ∧ c.toNat ≤ 90 then
    Char.ofNatAux (c.toNat + 32) (Or.inl (by omega))
  else c

/-- ASCII upper-casing of one character (`a`..`z` shifted by -32). -/
def upperChar (c : Char) : Char :=
  if _h : 97 ≤ c.toNat ∧ c.toNat ≤ 122 then
    Char.ofNatAux (c.toNat - 32) (Or.inl (by omega))
  else c

/-- Model of Python `s.lower()` (ASCII range). -/
def lowerStr (s : String) : String := ⟨s.data.map lowerChar⟩

/-- Model of Python `s.upper()` (ASCII range). -/
def upperStr (s : String) : String := ⟨s.data.map upperChar⟩

/-- Model of Python `s.split(sep)` for a one-character separator, on
character lists. -/
def splitChar (sep : Char) : List Char → List (List Char)
  | [] => [[]]
  | x :: xs =>
    match splitChar sep xs with
    | [] => [[]]
    | g :: gs => if x = sep then [] :: g :: gs else (x :: g) :: gs

/-- Model of Python `s.strip()`: drop leading and trailing whitespace. -/
def stripChars (l : List Char) : List Char :=
  ((l.dropWhile Char.isWhitespace).reverse.dropWhile Char.isWhitespace).reverse

/-- Python `s.strip()` on strings. -/
def pyStrip (s : String) : String := ⟨stripChars s.data⟩

/-- Python `s.split(",")` on strings. -/
def pySplitComma (s : String) : List String :=
  (splitChar ',' s.data).map (fun l => ⟨l⟩)

/-- `startsWithChars pat l` is true when `pat` is an initial segment of `l`. -/
def startsWithChars : List Char → List Char → Bool
  | [], _ => true
  | _ :: _, [] => false
  | p :: ps, x :: xs => (p == x) && startsWithChars ps xs

/-- Auxiliary scan for `strContains`. -/
def hasSubAux (pat : List Char) : List Char → Bool
  | [] => startsWithChars pat []
  | x :: xs => startsWithChars pat (x :: xs) || hasSubAux pat xs

/-- Model of Python `pat in s` on strings (substring containment). -/
def strContains (s pat : String) : Bool := hasSubAux pat.data s.data

/-- Truthiness of a Python `Optional[str]` (`None` and `""` are falsy). -/
def optStrTruthy : Option String → Bool
  | some s => s != ""
  | Option.none => false

/-- Truthiness of a Python optional list (`None` and `[]` are falsy). -/
def optListTruthy {α : Type} : Option (List α) → Bool
  | some l => !l.isEmpty
  | Option.none => false

/-- A Python `Optional[str]` as a YAML value (`None` ↦ YAML null). -/
def optStrPVal : Option String → PVal
  | some s => PVal.str s
  | Option.none => PVal.none

/-- The `PipelineRequest` pydantic model of `pipeline_generator.py`,
restricted to the fields read by `choose_tool`, `generate_sling_replication`,
`generate_dagster_yaml` and the `config.yaml` part of `create_pipeline`.
`source_configuration` values are kept as strings (the generator only ever
reads the string-valued `tables` entry). Defaults mirror the pydantic
defaults. -/
structure PipelineRequest where
  name : String := ""
  source_type : String
  destination_type : String
  source_configuration : List (String × String) := []
  description : Option String := Option.none
  group_name : Option String := Option.none
  schedule_enabled : Bool := false
  cron_schedule : Option String := Option.none
  timezone : String := "UTC"
  partitions_enabled : Bool := false
  partition_type : Option String := Option.none
  partition_start : Option String := Option.none
  partition_cron : Option String := Option.none
  partition_keys : Option (List String) := Option.none
  owners : Option (List String) := Option.none
  tags : Option (List (String × String)) := Option.none
  kinds : Option (List String) := Option.none
  retries : Int := 2
  retry_delay : Int := 30
  retry_backoff : String := "LINEAR"
  retry_jitter : Option String := Option.none
  incremental_enabled : Bool := false
  cursor_field : Option String := Option.none
  cursor_initial_value : Option String := Option.none
  partition_frequency : String := "@daily"

/-- The `api_sources` set of `choose_tool`. -/
def api_sources : List String :=
  ["github", "stripe", "shopify", "hubspot", "salesforce",
   "google_analytics", "facebook_ads", "google_ads", "slack", "notion",
   "airtable", "asana", "jira", "zendesk", "intercom", "mixpanel", "segment"]

/-- The `db_sources` set of `choose_tool`. -/
def db_sources : List String := ["postgres", "mysql", "mongodb", "mssql", "oracle"]

/-- The `storage_sources` set of `choose_tool`. -/
def storage_sources : List String := ["s3", "gcs", "azure_blob", "csv", "json", "parquet"]

/-- `choose_tool` from `pipeline_generator.py`: membership of the
lower-cased source type is tested against the API/SaaS set, then the
storage set, then the database set; anything else defaults to `"dlt"`.
The destination type is accepted but never read. -/
def choose_tool (source_type destination_type : String) : String :=
  if lowerStr source_type ∈ api_sources then "dlt"
  else if lowerStr source_type ∈ storage_sources then "dlt"
  else if lowerStr source_type ∈ db_sources then "sling"
  else "dlt"

/-- The placeholder `streams` mapping written by `generate_sling_replication`
when no `tables` entry is configured. -/
def sling_streams_placeholder : List (String × PVal) :=
  [("# TODO: Configure your streams", PVal.dict [("# Example", PVal.str "public.users")])]

/-- The `streams` mapping of `generate_sling_replication`: one entry per
comma-separated (and stripped) table name `t`, keyed `public.t`, valued
`{"object": f"{destination_type}.{t}"}`; a placeholder when `tables` is
absent or empty. -/
def sling_streams (r : PipelineRequest) : List (String × PVal) :=
  match assocLookup r.source_configuration "tables" with
  | some t =>
    if t != "" then
      ((pySplitComma t).map pyStrip).foldl
        (fun acc table =>
          dictAssign acc ("public." ++ table)
            (PVal.dict [("object", PVal.str (r.destination_type ++ "." ++ table))]))
        []
    else sling_streams_placeholder
  | Option.none => sling_streams_placeholder

/-- `generate_sling_replication` from `pipeline_generator.py`: the
replication.yaml document structure. -/
def generate_sling_replication (r : PipelineRequest) : List (String × PVal) :=
  [("source", PVal.str (upperStr r.source_type)),
   ("target", PVal.str (upperStr r.destination_type)),
   ("defaults", PVal.dict
     [("mode", PVal.str "full-refresh"),
      ("object", PVal.str "\x7bstream_schema\x7d.\x7bstream_table\x7d")]),
   ("streams", PVal.dict (sling_streams r))]

/-- One optional document entry: `[(k, v)]` when the guarding Python
truthiness test holds, else nothing. -/
def optEntry (cond : Bool) (k : String) (v : PVal) : List (String × PVal) :=
  if cond then [(k, v)] else []

/-- The `retry_policy` block of `generate_dagster_yaml`: `max_retries` and
`delay` always; `backoff` only when not the default `LINEAR`; `jitter`
only when set. -/
def retry_policy_block (r : PipelineRequest) : List (String × PVal) :=
  [("max_retries", PVal.int r.retries), ("delay", PVal.int r.retry_delay)]
  ++ optEntry ((r.retry_backoff != "") && (r.retry_backoff != "LINEAR"))
       "backoff" (PVal.str r.retry_backoff)
  ++ optEntry (optStrTruthy r.retry_jitter) "jitter" (PVal.str (r.retry_jitter.getD ""))

/-- A time-typed `partitions` block as written by `generate_dagster_yaml`. -/
def partitions_time_block (start cron tz : String) : PVal :=
  PVal.dict
    [("enabled", PVal.bool true),
     ("type", PVal.str "time"),
     ("time", PVal.dict
       [("start", PVal.str start),
        ("cron_schedule", PVal.str cron),
        ("timezone", PVal.str tz),
        ("fmt", PVal.str "%Y-%m-%d")])]

/-- The trailing `partitions` / `incremental` entries of
`generate_dagster_yaml`: the incremental branch synthesizes a time partition
starting at the initial cursor value (falling back to the current date) and
records the cursor outside the partitions block; otherwise the explicit
partition configuration is rendered. -/
def partitions_segment (r : PipelineRequest) (today : String) : List (String × PVal) :=
  if r.incremental_enabled && optStrTruthy r.cursor_field then
    [("partitions", partitions_time_block
        (match r.cursor_initial_value with
         | some v => if v != "" then v else today
         | Option.none => today)
        r.partition_frequency r.timezone),
     ("incremental", PVal.dict
       [("cursor_field", PVal.str (r.cursor_field.getD "")),
        ("initial_value", optStrPVal r.cursor_initial_value)])]
  else if r.partitions_enabled then
    if r.partition_type = some "time" then
      [("partitions", partitions_time_block
          (match r.partition_start with
           | some s => if s != "" then s else "2024-01-01"
           | Option.none => "2024-01-01")
          (match r.partition_cron with
           | some c => if c != "" then c else "0 0 * * *"
           | Option.none => "0 0 * * *")
          r.timezone)]
    else if r.partition_type = some "static" && optListTruthy r.partition_keys then
      [("partitions", PVal.dict
        [("enabled", PVal.bool true),
         ("type", PVal.str "static"),
         ("static", PVal.dict
           [("partition_keys", PVal.list ((r.partition_keys.getD []).map PVal.str))])])]
    else []
  else []

/-- `generate_dagster_yaml` from `pipeline_generator.py`: the dagster.yaml
document structure, with the current date as an explicit argument. Entries
appear in the source's insertion order. -/
def generate_dagster_yaml (r : PipelineRequest) (today : String) : List (String × PVal) :=
  [("enabled", PVal.bool true)]
  ++ optEntry (optStrTruthy r.description) "description" (PVal.str (r.description.getD ""))
  ++ optEntry (optStrTruthy r.group_name) "group" (PVal.str (r.group_name.getD ""))
  ++ optEntry (optListTruthy r.owners) "owners" (PVal.list ((r.owners.getD []).map PVal.str))
  ++ optEntry (r.schedule_enabled && optStrTruthy r.cron_schedule) "schedule"
       (PVal.dict
         [("enabled", PVal.bool true),
          ("cron_schedule", PVal.str (r.cron_schedule.getD "")),
          ("timezone", PVal.str r.timezone)])
  ++ optEntry (optListTruthy r.tags) "tags"
       (PVal.dict ((r.tags.getD []).map (fun p => (p.1, PVal.str p.2))))
  ++ optEntry (optListTruthy r.kinds) "kinds" (PVal.list ((r.kinds.getD []).map PVal.str))
  ++ [("retry_policy", PVal.dict (retry_policy_block r))]
  ++ partitions_segment r today

/-- The config.yaml document written by `create_pipeline`: source type,
destination type, and the source configuration only when non-empty. -/
def create_config_yaml (r : PipelineRequest) : List (String × PVal) :=
  [("source_type", PVal.str r.source_type),
   ("destination_type", PVal.str r.destination_type)]
  ++ (if r.source_configuration.isEmpty then []
      else [("configuration",
             PVal.dict (r.source_configuration.map (fun p => (p.1, PVal.str p.2))))])

/-- One pipeline directory as seen by `cli/toggle.py`: the parsed content
of `dagster.yaml` when the file exists, plus the remaining files, which the
toggle never touches. -/
structure PipelineDir where
  dagster_yaml : Option PVal := Option.none
  other_files : List (String × String) := []

/-- The pipelines tree of the repository: named directories under
`pipelines/dlt/` and `pipelines/sling/`. -/
structure Repo where
  dlt_pipelines : List (String × PipelineDir) := []
  sling_pipelines : List (String × PipelineDir) := []

/-- The lookup of `_toggle_pipeline`: search the name under `dlt` first,
then under `sling`; first match wins. -/
def findPipeline (repo : Repo) (name : String) : Option (String × PipelineDir) :=
  match assocLookup repo.dlt_pipelines name with
  | some d => some ("dlt", d)
  | Option.none =>
    match assocLookup repo.sling_pipelines name with
    | some d => some ("sling", d)
    | Option.none => Option.none

/-- Replace the `dagster.yaml` content of the named directory, keeping all
its other files. -/
def setDagster (m : List (String × PipelineDir)) (name : String) (y : PVal) :
    List (String × PipelineDir) :=
  match m with
  | [] => []
  | (n, d) :: rest =>
    if n = name then (n, { d with dagster_yaml := some y }) :: rest
    else (n, d) :: setDagster rest name y

/-- The per-directory body of `_toggle_pipeline`: no `dagster.yaml` means
report-and-return (`Option.none` = nothing written); otherwise
`yaml.safe_load(f) or {}` followed by `config["enabled"] = enabled`, which
raises `TypeError` on a truthy non-dict document. -/
def toggleDir (d : PipelineDir) (enabled : Bool) : Except String (Option PVal) :=
  match d.dagster_yaml with
  | Option.none => Except.ok Option.none
  | some content =>
    match (if truthy content then content else PVal.dict []) with
    | PVal.dict m =>
      Except.ok (some (PVal.dict (dictAssign m "enabled" (PVal.bool enabled))))
    | _ => Except.error "TypeError"

/-- `_toggle_pipeline` from `cli/toggle.py`: find the pipeline (dlt first,
then sling), return unchanged when it is absent or has no `dagster.yaml`,
otherwise rewrite that file with the `enabled` key set. -/
def toggle_pipeline (repo : Repo) (name : String) (enabled : Bool) : Except String Repo :=
  match assocLookup repo.dlt_pipelines name with
  | some d =>
    match toggleDir d enabled with
    | Except.error e => Except.error e
    | Except.ok Option.none => Except.ok repo
    | Except.ok (some y) =>
      Except.ok { repo with dlt_pipelines := setDagster repo.dlt_pipelines name y }
  | Option.none =>
    match assocLookup repo.sling_pipelines name with
    | some d =>
      match toggleDir d enabled with
      | Except.error e => Except.error e
      | Except.ok Option.none => Except.ok repo
      | Except.ok (some y) =>
        Except.ok { repo with sling_pipelines := setDagster repo.sling_pipelines name y }
    | Option.none => Except.ok repo

/-- What the validator observes of one YAML file: absent, `yaml.YAMLError`
on parse, or a parsed value. -/
inductive YamlFile where
  | missing
  | parseError (msg : String)
  | parsed (v : PVal)

/-- What the validator observes of one text file: absent, unreadable
(caught `Exception`), or its text. -/
inductive TextFile where
  | missing
  | readError (msg : String)
  | content (s : String)

/-- A `pipelines/dlt/<name>/` directory as observed by
`_validate_dlt_pipeline`. -/
structure DltDir where
  name : String
  dagster_yaml : YamlFile := YamlFile.missing
  pipeline_py : TextFile := TextFile.missing

/-- A `pipelines/sling/<name>/` directory as observed by
`_validate_sling_pipeline`. -/
structure SlingDir where
  name : String
  dagster_yaml : YamlFile := YamlFile.missing
  replication_yaml : YamlFile := YamlFile.missing

/-- The shared `dagster.yaml` checks of both validators: missing file,
YAML parse error and empty document become issue strings; on a truthy
document the code calls `.get` (raising `AttributeError` on non-dicts),
flags a falsy description, and flags an enabled schedule without a cron
expression. -/
def dagsterIssues (tool pname : String) (f : YamlFile) : Except String (List String) :=
  match f with
  | YamlFile.missing => Except.ok [tool ++ "/" ++ pname ++ ": Missing dagster.yaml"]
  | YamlFile.parseError e =>
    Except.ok [tool ++ "/" ++ pname ++ ": Invalid YAML in dagster.yaml - " ++ e]
  | YamlFile.parsed v =>
    if truthy v then
      match pyGet v "description" PVal.none with
      | Except.error e => Except.error e
      | Except.ok desc =>
        match pyGet v "schedule" (PVal.dict []) with
        | Except.error e => Except.error e
        | Except.ok sched =>
          match pyGet sched "enabled" PVal.none with
          | Except.error e => Except.error e
          | Except.ok en =>
            if truthy en then
              match pyGet sched "cron_schedule" PVal.none with
              | Except.error e => Except.error e
              | Except.ok cron =>
                if truthy cron then
                  Except.ok (if truthy desc then []
                    else [tool ++ "/" ++ pname ++ ": Missing description in dagster.yaml"])
                else
                  Except.ok ((if truthy desc then []
                    else [tool ++ "/" ++ pname ++ ": Missing description in dagster.yaml"])
                    ++ [tool ++ "/" ++ pname ++ ": Schedule enabled but no cron_schedule defined"])
            else
              Except.ok (if truthy desc then []
                else [tool ++ "/" ++ pname ++ ": Missing description in dagster.yaml"])
    else Except.ok [tool ++ "/" ++ pname ++ ": Empty dagster.yaml"]

/-- The `pipeline.py` checks of `_validate_dlt_pipeline`: file reads are
wrapped in a catch-all, so these checks never raise. -/
def pipelinePyIssues (pname : String) (f : TextFile) : List String :=
  match f with
  | TextFile.missing => ["dlt/" ++ pname ++ ": Missing pipeline.py"]
  | TextFile.readError e => ["dlt/" ++ pname ++ ": Could not read pipeline.py - " ++ e]
  | TextFile.content c =>
    if strContains c "def run(" then []
    else ["dlt/" ++ pname ++ ": pipeline.py missing run() function"]

/-- The `replication.yaml` checks of `_validate_sling_pipeline`. -/
def replicationIssues (pname : String) (f : YamlFile) : Except String (List String) :=
  match f with
  | YamlFile.missing => Except.ok ["sling/" ++ pname ++ ": Missing replication.yaml"]
  | YamlFile.parseError e =>
    Except.ok ["sling/" ++ pname ++ ": Invalid YAML in replication.yaml - " ++ e]
  | YamlFile.parsed v =>
    if truthy v then
      match pyGet v "source" PVal.none with
      | Except.error e => Except.error e
      | Except.ok src =>
        match pyGet v "target" PVal.none with
        | Except.error e => Except.error e
        | Except.ok tgt =>
          match pyGet v "streams" PVal.none with
          | Except.error e => Except.error e
          | Except.ok strm =>
            Except.ok
              ((if truthy src then []
                else ["sling/" ++ pname ++ ": Missing \x27source\x27 in replication.yaml"])
               ++ (if truthy tgt then []
                else ["sling/" ++ pname ++ ": Missing \x27target\x27 in replication.yaml"])
               ++ (if truthy strm then []
                else ["sling/" ++ pname ++ ": Missing \x27streams\x27 in replication.yaml"]))
    else Except.ok ["sling/" ++ pname ++ ": Empty replication.yaml"]

/-- `_validate_dlt_pipeline` from `cli/validate.py`. -/
def validate_dlt_pipeline (d : DltDir) : Except String (List String) :=
  match dagsterIssues "dlt" d.name d.dagster_yaml with
  | Except.error e => Except.error e
  | Except.ok i1 => Except.ok (i1 ++ pipelinePyIssues d.name d.pipeline_py)

/-- `_validate_sling_pipeline` from `cli/validate.py`. -/
def validate_sling_pipeline (d : SlingDir) : Except String (List String) :=
  match dagsterIssues "sling" d.name d.dagster_yaml with
  | Except.error e => Except.error e
  | Except.ok i1 =>
    match replicationIssues d.name d.replication_yaml with
    | Except.error e => Except.error e
    | Except.ok i2 => Except.ok (i1 ++ i2)

/-- Accumulate per-pipeline issues across a directory listing; an uncaught
per-pipeline exception aborts the whole scan, as in the source. -/
def collectValidate {α : Type} (f : α → Except String (List String)) :
    List α → Except String (List String)
  | [] => Except.ok []
  | d :: ds =>
    match f d with
    | Except.error e => Except.error e
    | Except.ok i =>
      match collectValidate f ds with
      | Except.error e => Except.error e
      | Except.ok rest => Except.ok (i ++ rest)

/-- The `validate` command over a pipelines root: all dlt directories, then
all sling directories. -/
def validate (dlts : List DltDir) (slings : List SlingDir) : Except String (List String) :=
  match collectValidate validate_dlt_pipeline dlts with
  | Except.error e => Except.error e
  | Except.ok i1 =>
    match collectValidate validate_sling_pipeline slings with
    | Except.error e => Except.error e
    | Except.ok i2 => Except.ok (i1 ++ i2)

/-- `true` when a present `schedule` entry of a dagster.yaml dict is itself
a dict (the shape on which `.get` chains cannot raise). -/
def scheduleValueOk (m : List (String × PVal)) : Bool :=
  match assocLookup m "schedule" with
  | some (PVal.dict _) => true
  | some _ => false
  | Option.none => true

/-- A dagster.yaml observation on which the validator's checks cannot raise:
missing, unparsable, falsy, or a dict whose `schedule` entry (if any) is a
dict. -/
def dagsterBenign (f : YamlFile) : Bool :=
  match f with
  | YamlFile.parsed (PVal.dict m) => scheduleValueOk m
  | YamlFile.parsed v => !truthy v
  | _ => true

/-- A replication.yaml observation on which the validator's checks cannot
raise: missing, unparsable, falsy, or a dict. -/
def replBenign (f : YamlFile) : Bool :=
  match f with
  | YamlFile.parsed (PVal.dict _) => true
  | YamlFile.parsed v => !truthy v
  | _ => true

/-- The enabled-schedule check passes for a well-formed dagster.yaml dict:
no schedule, or a schedule dict that is disabled or carries a truthy
`cron_schedule`. -/
def scheduleCheckOk (m : List (String × PVal)) : Bool :=
  match assocLookup m "schedule" with
  | Option.none => true
  | some (PVal.dict sm) =>
    !truthy ((assocLookup sm "enabled").getD PVal.none)
    || truthy ((assocLookup sm "cron_schedule").getD PVal.none)
  | some _ => false

/-- The postgres→bigquery request of the end-to-end scenario. -/
def req_pg : PipelineRequest :=
  { name := "pg1", source_type := "postgres", destination_type := "bigquery",
    source_configuration := [("tables", "users,orders")] }

/-- An incremental request with a supplied initial cursor value. -/
def req_incr : PipelineRequest :=
  { name := "api1", source_type := "rest_api", destination_type := "duckdb",
    incremental_enabled := true, cursor_field := some "updated_at",
    cursor_initial_value := some "2024-03-01" }

/-- An incremental request with no supplied initial cursor value. -/
def req_incr_nodate : PipelineRequest :=
  { name := "api2", source_type := "rest_api", destination_type := "duckdb",
    incremental_enabled := true, cursor_field := some "updated_at" }

/-- A concrete, fully populated dagster.yaml document. -/
def dagster_doc : List (String × PVal) :=
  [("enabled", PVal.bool true),
   ("description", PVal.str "demo"),
   ("owners", PVal.list [PVal.str "team:data"]),
   ("tags", PVal.dict [("env", PVal.str "dev")]),
   ("retry_policy", PVal.dict [("max_retries", PVal.int 2), ("delay", PVal.int 30)])]

/-- A pipeline directory holding `dagster_doc` plus an untouched program file. -/
def dir_ok : PipelineDir :=
  { dagster_yaml := some (PVal.dict dagster_doc),
    other_files := [("pipeline.py", "def run(x): pass")] }

/-- A repository with one dlt pipeline, `p`. -/
def repo_one : Repo := { dlt_pipelines := [("p", dir_ok)] }

/-- A pipeline directory with no dagster.yaml file. -/
def dir_nodagster : PipelineDir := { other_files := [("pipeline.py", "x")] }

/-- A repository whose only pipeline, `q`, lacks dagster.yaml. -/
def repo_nodagster : Repo := { sling_pipelines := [("q", dir_nodagster)] }

/-- A repository with no pipelines at all. -/
def repo_empty : Repo := {}

/-- A minimal well-formed dagster.yaml document for the validator. -/
def dagster_ok_yaml : PVal :=
  PVal.dict [("enabled", PVal.bool true), ("description", PVal.str "demo pipeline")]

/-- A complete, well-formed dlt pipeline directory. -/
def dlt_ok_dir : DltDir :=
  { name := "gh", dagster_yaml := YamlFile.parsed dagster_ok_yaml,
    pipeline_py := TextFile.content "import dlt\n\ndef run(partition_key = None):\n    return None\n" }

/-- A dlt pipeline directory whose program lacks a `def run(` definition. -/
def dlt_norun_dir : DltDir :=
  { name := "bad", dagster_yaml := YamlFile.parsed dagster_ok_yaml,
    pipeline_py := TextFile.content "print(1)\n" }

/-- A complete, well-formed sling pipeline directory. -/
def sling_ok_dir : SlingDir :=
  { name := "pg", dagster_yaml := YamlFile.parsed dagster_ok_yaml,
    replication_yaml := YamlFile.parsed (PVal.dict
      [("source", PVal.str "POSTGRES"),
       ("target", PVal.str "BIGQUERY"),
       ("streams", PVal.dict [("public.users", PVal.dict [("object", PVal.str "bigquery.users")])])]) }

/-- A sling pipeline directory whose replication.yaml lacks a `streams` key. -/
def sling_nostreams_dir : SlingDir :=
  { name := "ns", dagster_yaml := YamlFile.parsed dagster_ok_yaml,
    replication_yaml := YamlFile.parsed (PVal.dict
      [("source", PVal.str "POSTGRES"), ("target", PVal.str "BIGQUERY")]) }

/-- A sling pipeline directory whose dagster.yaml parses to a truthy
non-mapping (a YAML list), the shape on which the validator's `.get`
call raises. -/
def sling_crash_dir : SlingDir :=
  { name := "crash", dagster_yaml := YamlFile.parsed (PVal.list [PVal.str "oops"]),
    replication_yaml := YamlFile.missing }

/-- A malformed-but-benign dlt pipeline directory: unparsable dagster.yaml,
missing program. -/
def dlt_malformed_dir : DltDir :=
  { name := "m", dagster_yaml := YamlFile.parseError "bad token",
    pipeline_py := TextFile.missing }

/-! ## Helper lemmas -/

theorem lowerChar_idem (c : Char) : lowerChar (lowerChar c) = lowerChar c := by
  unfold lowerChar
  by_cases h : 65 ≤ c.toNat ∧ c.toNat ≤ 90
  · rw [dif_pos h, dif_neg]
    intro hc
    have he : (Char.ofNatAux (c.toNat + 32) (Or.inl (by omega))).toNat = c.toNat + 32 := rfl
    omega
  · rw [dif_neg h, dif_neg h]

theorem lowerStr_idem (s : String) : lowerStr (lowerStr s) = lowerStr s := by
  unfold lowerStr
  refine congrArg String.mk ?_
  rw [List.map_map]
  exact List.map_congr_left (fun c _ => lowerChar_idem c)

theorem assocLookup_dictAssign_self {α : Type} (m : List (String × α)) (k : String) (v : α) :
    assocLookup (dictAssign m k v) k = some v := by
  induction m with
  | nil => simp [dictAssign, assocLookup]
  | cons p rest ih =>
    obtain ⟨k1, v1⟩ := p
    by_cases h : k1 = k
    · simp [dictAssign, h, assocLookup]
    · simp [dictAssign, h, assocLookup, ih]

theorem assocLookup_dictAssign_ne {α : Type} (m : List (String × α)) (k : String) (v : α)
    (k2 : String) (h : k2 ≠ k) :
    assocLookup (dictAssign m k v) k2 = assocLookup m k2 := by
  induction m with
  | nil => simp [dictAssign, assocLookup, Ne.symm h]
  | cons p rest ih =>
    obtain ⟨k1, v1⟩ := p
    by_cases h1 : k1 = k
    · subst h1
      simp [dictAssign, assocLookup, Ne.symm h]
    · simp only [dictAssign, if_neg h1, assocLookup]
      by_cases h2 : k1 = k2
      · simp [h2]
      · simp [h2, ih]

theorem assocLookup_setDagster {l : List (String × PipelineDir)} {name : String}
    {d : PipelineDir} (y : PVal) (h : assocLookup l name = some d) :
    assocLookup (setDagster l name y) name = some { d with dagster_yaml := some y } := by
  induction l with
  | nil => simp [assocLookup] at h
  | cons p rest ih =>
    obtain ⟨n, d1⟩ := p
    by_cases hn : n = name
    · simp only [assocLookup, if_pos hn, Option.some.injEq] at h
      subst h
      simp [setDagster, hn, assocLookup]
    · simp only [assocLookup, if_neg hn] at h
      simp [setDagster, hn, assocLookup, ih h]

/-! ## Tool selector claims -/

/-- Claim C1: the tool selector is a pure total function of the two type
names; every source type in the API/SaaS set selects `dlt`, every one in
the storage/file set selects `dlt`, every one in the database set selects
`sling`, and every source type outside the three category sets (membership
being tested on the lower-cased name, as the code does) selects the default
`dlt`. -/
theorem C1_tool_selector_policy :
    (∀ s ∈ api_sources, ∀ d, choose_tool s d = "dlt")
    ∧ (∀ s ∈ storage_sources, ∀ d, choose_tool s d = "dlt")
    ∧ (∀ s ∈ db_sources, ∀ d, choose_tool s d = "sling")
    ∧ (∀ s d, lowerStr s ∉ api_sources → lowerStr s ∉ storage_sources →
        lowerStr s ∉ db_sources → choose_tool s d = "dlt") := by
  refine ⟨?_, ?_, ?_, ?_⟩
  · intro s hs d
    simp only [api_sources] at hs
    fin_cases hs <;> rfl
  · intro s hs d
    simp only [storage_sources] at hs
    fin_cases hs <;> rfl
  · intro s hs d
    simp only [db_sources] at hs
    fin_cases hs <;> rfl
  · intro s d h1 h2 h3
    simp [choose_tool, h1, h2, h3]

/-- Witness for C1 at one concrete source type of each category. -/
theorem C1_tool_selector_policy_witness :
    choose_tool "github" "snowflake" = "dlt"
    ∧ choose_tool "s3" "bigquery" = "dlt"
    ∧ choose_tool "postgres" "bigquery" = "sling"
    ∧ choose_tool "custom_api" "bigquery" = "dlt" :=
  ⟨C1_tool_selector_policy.1 "github" (by decide) "snowflake",
   C1_tool_selector_policy.2.1 "s3" (by decide) "bigquery",
   C1_tool_selector_policy.2.2.1 "postgres" (by decide) "bigquery",
   C1_tool_selector_policy.2.2.2 "custom_api" "bigquery" (by decide) (by decide) (by decide)⟩

/-- Claim C7: the selected tool never depends on the destination type. -/
theorem C7_destination_type_ignored :
    ∀ (source_type d1 d2 : String),
      choose_tool source_type d1 = choose_tool source_type d2 :=
  fun _ _ _ => rfl

/-- Claim C9: the tool selector is case-insensitive in the source type —
any mixed-case variant selects the same tool as its lower-cased form. -/
theorem C9_source_type_case_insensitive :
    ∀ (s d : String), choose_tool s d = choose_tool (lowerStr s) d := by
  intro s d
  unfold choose_tool
  rw [lowerStr_idem]


/-! ## Toggle claims -/

theorem findPipeline_dlt {repo : Repo} {name : String} {d : PipelineDir}
    (h : assocLookup repo.dlt_pipelines name = some d) :
    findPipeline repo name = some ("dlt", d) := by
  unfold findPipeline
  rw [h]

theorem findPipeline_sling {repo : Repo} {name : String} {d : PipelineDir}
    (h1 : assocLookup repo.dlt_pipelines name = Option.none)
    (h2 : assocLookup repo.sling_pipelines name = some d) :
    findPipeline repo name = some ("sling", d) := by
  unfold findPipeline
  rw [h1, h2]

theorem findPipeline_missing {repo : Repo} {name : String}
    (h1 : assocLookup repo.dlt_pipelines name = Option.none)
    (h2 : assocLookup repo.sling_pipelines name = Option.none) :
    findPipeline repo name = Option.none := by
  unfold findPipeline
  rw [h1, h2]

theorem toggleDir_nofile {d : PipelineDir} (enabled : Bool)
    (h : d.dagster_yaml = Option.none) :
    toggleDir d enabled = Except.ok Option.none := by
  unfold toggleDir
  rw [h]

theorem toggleDir_dict {d : PipelineDir} {m : List (String × PVal)} (enabled : Bool)
    (h : d.dagster_yaml = some (PVal.dict m)) :
    toggleDir d enabled
      = Except.ok (some (PVal.dict (dictAssign m "enabled" (PVal.bool enabled)))) := by
  unfold toggleDir
  rw [h]
  cases m with
  | nil => rfl
  | cons p rest => rfl

theorem toggle_pipeline_dlt {repo : Repo} {name : String} {d : PipelineDir} (enabled : Bool)
    (h : assocLookup repo.dlt_pipelines name = some d) :
    toggle_pipeline repo name enabled
      = (match toggleDir d enabled with
         | Except.error e => Except.error e
         | Except.ok Option.none => Except.ok repo
         | Except.ok (some y) =>
           Except.ok { repo with dlt_pipelines := setDagster repo.dlt_pipelines name y }) := by
  unfold toggle_pipeline
  rw [h]

theorem toggle_pipeline_sling {repo : Repo} {name : String} {d : PipelineDir} (enabled : Bool)
    (h1 : assocLookup repo.dlt_pipelines name = Option.none)
    (h2 : assocLookup repo.sling_pipelines name = some d) :
    toggle_pipeline repo name enabled
      = (match toggleDir d enabled with
         | Except.error e => Except.error e
         | Except.ok Option.none => Except.ok repo
         | Except.ok (some y) =>
           Except.ok { repo with sling_pipelines := setDagster repo.sling_pipelines name y }) := by
  unfold toggle_pipeline
  rw [h1, h2]

theorem toggle_pipeline_missing {repo : Repo} {name : String} (enabled : Bool)
    (h1 : assocLookup repo.dlt_pipelines name = Option.none)
    (h2 : assocLookup repo.sling_pipelines name = Option.none) :
    toggle_pipeline repo name enabled = Except.ok repo := by
  unfold toggle_pipeline
  rw [h1, h2]

/-- Claim C4: disabling an existing pipeline rewrites only the `enabled`
key of its metadata descriptor — reading it back yields `enabled: false`
while every other field keeps its previous value, and the directory's other
files are untouched. -/
theorem C4_set_enabled_frame :
    ∀ (repo : Repo) (name tool : String) (d : PipelineDir) (m : List (String × PVal)),
      findPipeline repo name = some (tool, d) →
      d.dagster_yaml = some (PVal.dict m) →
      ∃ (repo2 : Repo) (d2 : PipelineDir) (m2 : List (String × PVal)),
        toggle_pipeline repo name false = Except.ok repo2
        ∧ findPipeline repo2 name = some (tool, d2)
        ∧ d2.dagster_yaml = some (PVal.dict m2)
        ∧ assocLookup m2 "enabled" = some (PVal.bool false)
        ∧ (∀ k, k ≠ "enabled" → assocLookup m2 k = assocLookup m k)
        ∧ d2.other_files = d.other_files := by
  intro repo name tool d m hf hd
  cases hdlt : assocLookup repo.dlt_pipelines name with
  | some d1 =>
    rw [findPipeline_dlt hdlt] at hf
    simp only [Option.some.injEq, Prod.mk.injEq] at hf
    obtain ⟨htool, hd1⟩ := hf
    subst hd1
    refine ⟨{ repo with dlt_pipelines := setDagster repo.dlt_pipelines name (PVal.dict (dictAssign m "enabled" (PVal.bool false))) },
      { d1 with dagster_yaml := some (PVal.dict (dictAssign m "enabled" (PVal.bool false))) },
      dictAssign m "enabled" (PVal.bool false), ?_, ?_, rfl,
      assocLookup_dictAssign_self m "enabled" (PVal.bool false),
      fun k hk => assocLookup_dictAssign_ne m "enabled" (PVal.bool false) k hk, rfl⟩
    · rw [toggle_pipeline_dlt false hdlt, toggleDir_dict false hd]
    · rw [← htool]
      exact findPipeline_dlt (assocLookup_setDagster _ hdlt)
  | none =>
    cases hsl : assocLookup repo.sling_pipelines name with
    | some d1 =>
      rw [findPipeline_sling hdlt hsl] at hf
      simp only [Option.some.injEq, Prod.mk.injEq] at hf
      obtain ⟨htool, hd1⟩ := hf
      subst hd1
      refine ⟨{ repo with sling_pipelines := setDagster repo.sling_pipelines name (PVal.dict (dictAssign m "enabled" (PVal.bool false))) },
        { d1 with dagster_yaml := some (PVal.dict (dictAssign m "enabled" (PVal.bool false))) },
        dictAssign m "enabled" (PVal.bool false), ?_, ?_, rfl,
        assocLookup_dictAssign_self m "enabled" (PVal.bool false),
        fun k hk => assocLookup_dictAssign_ne m "enabled" (PVal.bool false) k hk, rfl⟩
      · rw [toggle_pipeline_sling false hdlt hsl, toggleDir_dict false hd]
      · rw [← htool]
        exact findPipeline_sling hdlt (assocLookup_setDagster _ hsl)
    | none =>
      rw [findPipeline_missing hdlt hsl] at hf
      exact absurd hf (by simp)

/-- Witness for C4: disabling the concrete pipeline `p` of `repo_one`. -/
theorem C4_set_enabled_frame_witness :
    ∃ (repo2 : Repo) (d2 : PipelineDir) (m2 : List (String × PVal)),
      toggle_pipeline repo_one "p" false = Except.ok repo2
      ∧ findPipeline repo2 "p" = some ("dlt", d2)
      ∧ d2.dagster_yaml = some (PVal.dict m2)
      ∧ assocLookup m2 "enabled" = some (PVal.bool false)
      ∧ (∀ k, k ≠ "enabled" → assocLookup m2 k = assocLookup dagster_doc k)
      ∧ d2.other_files = dir_ok.other_files :=
  C4_set_enabled_frame repo_one "p" "dlt" dir_ok dagster_doc rfl rfl

/-- Claim C10: the toggle is atomic on error — when the pipeline is not
found in either tool namespace, or is found without a metadata descriptor,
the repository state is returned completely unchanged (no file created or
modified). -/
theorem C10_toggle_atomic_on_error :
    ∀ (repo : Repo) (name : String) (enabled : Bool),
      (findPipeline repo name = Option.none →
        toggle_pipeline repo name enabled = Except.ok repo)
      ∧ (∀ tool d, findPipeline repo name = some (tool, d) →
          d.dagster_yaml = Option.none →
          toggle_pipeline repo name enabled = Except.ok repo) := by
  intro repo name enabled
  constructor
  · intro h
    cases hdlt : assocLookup repo.dlt_pipelines name with
    | some d1 =>
      rw [findPipeline_dlt hdlt] at h
      exact absurd h (by simp)
    | none =>
      cases hsl : assocLookup repo.sling_pipelines name with
      | some d1 =>
        rw [findPipeline_sling hdlt hsl] at h
        exact absurd h (by simp)
      | none => exact toggle_pipeline_missing enabled hdlt hsl
  · intro tool d hf hd
    cases hdlt : assocLookup repo.dlt_pipelines name with
    | some d1 =>
      rw [findPipeline_dlt hdlt] at hf
      simp only [Option.some.injEq, Prod.mk.injEq] at hf
      obtain ⟨_, hd1⟩ := hf
      subst hd1
      rw [toggle_pipeline_dlt enabled hdlt, toggleDir_nofile enabled hd]
    | none =>
      cases hsl : assocLookup repo.sling_pipelines name with
      | some d1 =>
        rw [findPipeline_sling hdlt hsl] at hf
        simp only [Option.some.injEq, Prod.mk.injEq] at hf
        obtain ⟨_, hd1⟩ := hf
        subst hd1
        rw [toggle_pipeline_sling enabled hdlt hsl, toggleDir_nofile enabled hd]
      | none =>
        rw [findPipeline_missing hdlt hsl] at hf
        exact absurd hf (by simp)

/-- Witness for C10: a missing pipeline name and a pipeline without
dagster.yaml both leave the repository untouched. -/
theorem C10_toggle_atomic_on_error_witness :
    toggle_pipeline repo_empty "missing" false = Except.ok repo_empty
    ∧ toggle_pipeline repo_nodagster "q" false = Except.ok repo_nodagster :=
  ⟨(C10_toggle_atomic_on_error repo_empty "missing" false).1 rfl,
   (C10_toggle_atomic_on_error repo_nodagster "q" false).2 "sling" dir_nodagster rfl rfl⟩

/-! ## Generator claims -/

theorem assocLookup_cons_ne {α : Type} (k1 : String) (v : α) (rest : List (String × α))
    (k : String) (h : k1 ≠ k) :
    assocLookup ((k1, v) :: rest) k = assocLookup rest k := by
  simp [assocLookup, h]

theorem assocLookup_optEntry_ne (c : Bool) (k1 : String) (v : PVal)
    (rest : List (String × PVal)) (k : String) (h : k1 ≠ k) :
    assocLookup (optEntry c k1 v ++ rest) k = assocLookup rest k := by
  cases c <;> simp [optEntry, assocLookup, h]

/-- Looking up any key other than the eight fixed leading keys of a
dagster.yaml document lands in its trailing partitions/incremental
segment. -/
theorem assocLookup_generate_dagster (r : PipelineRequest) (today k : String)
    (h1 : k ≠ "enabled") (h2 : k ≠ "description") (h3 : k ≠ "group")
    (h4 : k ≠ "owners") (h5 : k ≠ "schedule") (h6 : k ≠ "tags")
    (h7 : k ≠ "kinds") (h8 : k ≠ "retry_policy") :
    assocLookup (generate_dagster_yaml r today) k
      = assocLookup (partitions_segment r today) k := by
  unfold generate_dagster_yaml
  simp only [List.cons_append, List.nil_append, List.append_assoc]
  rw [assocLookup_cons_ne _ _ _ _ (Ne.symm h1)]
  rw [assocLookup_optEntry_ne _ _ _ _ _ (Ne.symm h2)]
  rw [assocLookup_optEntry_ne _ _ _ _ _ (Ne.symm h3)]
  rw [assocLookup_optEntry_ne _ _ _ _ _ (Ne.symm h4)]
  rw [assocLookup_optEntry_ne _ _ _ _ _ (Ne.symm h5)]
  rw [assocLookup_optEntry_ne _ _ _ _ _ (Ne.symm h6)]
  rw [assocLookup_optEntry_ne _ _ _ _ _ (Ne.symm h7)]
  rw [assocLookup_cons_ne _ _ _ _ (Ne.symm h8)]

/-- Claim C3: with incremental loading enabled and a non-empty cursor
field, the metadata descriptor carries a time partitions block whose start
is the supplied initial cursor value (or the current date when none was
supplied), and a separate top-level incremental block recording the cursor
field and the initial value. -/
theorem C3_incremental_partition_blocks :
    ∀ (r : PipelineRequest) (today c : String),
      r.incremental_enabled = true →
      r.cursor_field = some c →
      c ≠ "" →
      ((∀ v, r.cursor_initial_value = some v → v ≠ "" →
        assocLookup (generate_dagster_yaml r today) "partitions"
          = some (partitions_time_block v r.partition_frequency r.timezone)
        ∧ assocLookup (generate_dagster_yaml r today) "incremental"
          = some (PVal.dict [("cursor_field", PVal.str c), ("initial_value", PVal.str v)]))
       ∧ (r.cursor_initial_value = Option.none →
        assocLookup (generate_dagster_yaml r today) "partitions"
          = some (partitions_time_block today r.partition_frequency r.timezone)
        ∧ assocLookup (generate_dagster_yaml r today) "incremental"
          = some (PVal.dict [("cursor_field", PVal.str c), ("initial_value", PVal.none)]))) := by
  intro r today c hinc hcf hc
  have hskipP := assocLookup_generate_dagster r today "partitions"
    (by decide) (by decide) (by decide) (by decide) (by decide) (by decide) (by decide) (by decide)
  have hskipI := assocLookup_generate_dagster r today "incremental"
    (by decide) (by decide) (by decide) (by decide) (by decide) (by decide) (by decide) (by decide)
  constructor
  · intro v hv hvne
    have hseg : partitions_segment r today
        = [("partitions", partitions_time_block v r.partition_frequency r.timezone),
           ("incremental", PVal.dict [("cursor_field", PVal.str c), ("initial_value", PVal.str v)])] := by
      unfold partitions_segment
      rw [hinc, hcf, hv]
      simp [optStrTruthy, optStrPVal, hc, hvne]
    rw [hskipP, hskipI, hseg]
    constructor
    · rfl
    · rfl
  · intro hv
    have hseg : partitions_segment r today
        = [("partitions", partitions_time_block today r.partition_frequency r.timezone),
           ("incremental", PVal.dict [("cursor_field", PVal.str c), ("initial_value", PVal.none)])] := by
      unfold partitions_segment
      rw [hinc, hcf, hv]
      simp [optStrTruthy, optStrPVal, hc]
    rw [hskipP, hskipI, hseg]
    constructor
    · rfl
    · rfl

/-- Witness for C3 at a request with a supplied initial cursor value and at
one without. -/
theorem C3_incremental_partition_blocks_witness :
    (assocLookup (generate_dagster_yaml req_incr "2025-06-01") "partitions"
      = some (partitions_time_block "2024-03-01" "@daily" "UTC")
     ∧ assocLookup (generate_dagster_yaml req_incr "2025-06-01") "incremental"
      = some (PVal.dict [("cursor_field", PVal.str "updated_at"), ("initial_value", PVal.str "2024-03-01")]))
    ∧ (assocLookup (generate_dagster_yaml req_incr_nodate "2025-06-01") "partitions"
      = some (partitions_time_block "2025-06-01" "@daily" "UTC")
     ∧ assocLookup (generate_dagster_yaml req_incr_nodate "2025-06-01") "incremental"
      = some (PVal.dict [("cursor_field", PVal.str "updated_at"), ("initial_value", PVal.none)])) :=
  ⟨(C3_incremental_partition_blocks req_incr "2025-06-01" "updated_at" rfl rfl
      (by decide)).1 "2024-03-01" rfl (by decide),
   (C3_incremental_partition_blocks req_incr_nodate "2025-06-01" "updated_at" rfl rfl
      (by decide)).2 rfl⟩

/-- Claim C8 (amended): the generated metadata descriptor is a pure
function of the request and the observed current date; it is independent of
the date — hence byte-identical across two runs — whenever the request does
not combine incremental loading (with a truthy cursor field) with a missing
or empty initial cursor value. The configuration snapshot
`create_config_yaml` takes no date at all, so it is identical across runs
unconditionally. -/
theorem C8_generation_deterministic_amended :
    ∀ (r : PipelineRequest) (d1 d2 : String),
      (r.incremental_enabled = true → optStrTruthy r.cursor_field = true →
        optStrTruthy r.cursor_initial_value = true) →
      generate_dagster_yaml r d1 = generate_dagster_yaml r d2 := by
  intro r d1 d2 h
  unfold generate_dagster_yaml
  suffices hs : partitions_segment r d1 = partitions_segment r d2 by rw [hs]
  unfold partitions_segment
  cases hb : (r.incremental_enabled && optStrTruthy r.cursor_field) with
  | false => rfl
  | true =>
    simp only [Bool.and_eq_true] at hb
    have hiv := h hb.1 hb.2
    cases hv : r.cursor_initial_value with
    | none => rw [hv] at hiv; exact absurd hiv (by simp [optStrTruthy])
    | some v =>
      rw [hv] at hiv
      simp only [optStrTruthy] at hiv
      simp [hv, hiv]

/-- Counterexample for C8: for an incremental request with no supplied
initial cursor value, the two dates model `datetime.now()` observed by two
runs of the generator on different days; the metadata descriptors differ
(in `partitions.time.start`), so they are not byte-identical. -/
theorem C8_counterexample :
    generate_dagster_yaml req_incr_nodate "2024-01-01"
      ≠ generate_dagster_yaml req_incr_nodate "2024-01-02" := by
  intro h
  have h1 : assocLookup (generate_dagster_yaml req_incr_nodate "2024-01-01") "partitions"
      = some (partitions_time_block "2024-01-01" "@daily" "UTC") := rfl
  have h2 : assocLookup (generate_dagster_yaml req_incr_nodate "2024-01-02") "partitions"
      = some (partitions_time_block "2024-01-02" "@daily" "UTC") := rfl
  rw [h, h2] at h1
  simp [partitions_time_block] at h1

/-- Witness for C8 (amended): with a supplied initial cursor value the
descriptor is identical across two different observed dates. -/
theorem C8_generation_deterministic_amended_witness :
    generate_dagster_yaml req_incr "2024-01-01" = generate_dagster_yaml req_incr "2024-01-02" :=
  C8_generation_deterministic_amended req_incr "2024-01-01" "2024-01-02"
    (fun _ _ => by decide)

/-- Claim C2 (amended): for every request with source type `postgres`,
destination type `bigquery` and configured tables `users,orders`, the
selected tool is sling and the replication descriptor has upper-cased
`source`/`target`, a full-refresh default, and exactly two streams —
`public.users` and `public.orders` — whose objects interpolate the
destination type verbatim (`bigquery.users`, `bigquery.orders`), not
upper-cased. -/
theorem C2_postgres_bigquery_scenario_amended :
    ∀ (r : PipelineRequest),
      r.source_type = "postgres" →
      r.destination_type = "bigquery" →
      assocLookup r.source_configuration "tables" = some "users,orders" →
      choose_tool r.source_type r.destination_type = "sling"
      ∧ generate_sling_replication r =
        [("source", PVal.str "POSTGRES"),
         ("target", PVal.str "BIGQUERY"),
         ("defaults", PVal.dict
           [("mode", PVal.str "full-refresh"),
            ("object", PVal.str "\x7bstream_schema\x7d.\x7bstream_table\x7d")]),
         ("streams", PVal.dict
           [("public.users", PVal.dict [("object", PVal.str "bigquery.users")]),
            ("public.orders", PVal.dict [("object", PVal.str "bigquery.orders")])])] := by
  intro r h1 h2 h3
  constructor
  · rw [h1, h2]
    rfl
  · unfold generate_sling_replication sling_streams
    rw [h1, h2, h3]
    rfl

/-- Witness for C2 (amended) at the concrete scenario request. -/
theorem C2_postgres_bigquery_scenario_amended_witness :
    choose_tool req_pg.source_type req_pg.destination_type = "sling"
    ∧ generate_sling_replication req_pg =
      [("source", PVal.str "POSTGRES"),
       ("target", PVal.str "BIGQUERY"),
       ("defaults", PVal.dict
         [("mode", PVal.str "full-refresh"),
          ("object", PVal.str "\x7bstream_schema\x7d.\x7bstream_table\x7d")]),
       ("streams", PVal.dict
         [("public.users", PVal.dict [("object", PVal.str "bigquery.users")]),
          ("public.orders", PVal.dict [("object", PVal.str "bigquery.orders")])])] :=
  C2_postgres_bigquery_scenario_amended req_pg rfl rfl rfl

/-- Counterexample for C2 as stated: in the generated streams mapping the
entry for `public.users` is not the upper-cased `BIGQUERY.users` object —
the destination type is interpolated verbatim. -/
theorem C2_counterexample :
    assocLookup (sling_streams req_pg) "public.users"
      ≠ some (PVal.dict [("object", PVal.str "BIGQUERY.users")]) := by
  have hv : assocLookup (sling_streams req_pg) "public.users"
      = some (PVal.dict [("object", PVal.str "bigquery.users")]) := rfl
  rw [hv]
  simp

/-! ## Validator claims -/

theorem truthy_dict_of_ne_nil {m : List (String × PVal)} (hm : m ≠ []) :
    truthy (PVal.dict m) = true := by
  cases m with
  | nil => exact absurd rfl hm
  | cons p rest => rfl

theorem dagsterIssues_wellformed (tool pname : String) (m : List (String × PVal))
    (hm : m ≠ []) (hdesc : truthy ((assocLookup m "description").getD PVal.none) = true)
    (hsch : scheduleCheckOk m = true) :
    dagsterIssues tool pname (YamlFile.parsed (PVal.dict m)) = Except.ok [] := by
  unfold scheduleCheckOk at hsch
  simp only [dagsterIssues]
  rw [if_pos (truthy_dict_of_ne_nil hm)]
  simp only [pyGet]
  cases hs : assocLookup m "schedule" with
  | none =>
    simpa [Option.getD, truthy, assocLookup] using hdesc
  | some sv =>
    cases sv with
    | dict sm =>
      rw [hs] at hsch
      have hsch2 : (!truthy ((assocLookup sm "enabled").getD PVal.none)
          || truthy ((assocLookup sm "cron_schedule").getD PVal.none)) = true := hsch
      simp only [Option.getD_some]
      by_cases hen : truthy ((assocLookup sm "enabled").getD PVal.none) = true
      · simp only [hen, Bool.not_true, Bool.false_or] at hsch2
        rw [if_pos hen]
        simp [hsch2, hdesc]
      · rw [if_neg hen]
        simp [hdesc]
    | none => rw [hs] at hsch; simp at hsch
    | bool b => rw [hs] at hsch; simp at hsch
    | int n => rw [hs] at hsch; simp at hsch
    | str s => rw [hs] at hsch; simp at hsch
    | list xs => rw [hs] at hsch; simp at hsch

theorem replicationIssues_wellformed (pname : String) (rm : List (String × PVal))
    (hrm : rm ≠ []) (hsrc : truthy ((assocLookup rm "source").getD PVal.none) = true)
    (htgt : truthy ((assocLookup rm "target").getD PVal.none) = true)
    (hstrm : truthy ((assocLookup rm "streams").getD PVal.none) = true) :
    replicationIssues pname (YamlFile.parsed (PVal.dict rm)) = Except.ok [] := by
  simp only [replicationIssues]
  rw [if_pos (truthy_dict_of_ne_nil hrm)]
  simp [pyGet, hsrc, htgt, hstrm]

theorem replicationIssues_nostreams_mem (pname : String) (p : String × PVal)
    (rest : List (String × PVal))
    (h : assocLookup (p :: rest) "streams" = Option.none) :
    ∃ l, replicationIssues pname (YamlFile.parsed (PVal.dict (p :: rest))) = Except.ok l
      ∧ ("sling/" ++ pname ++ ": Missing \x27streams\x27 in replication.yaml") ∈ l := by
  refine ⟨(if truthy ((assocLookup (p :: rest) "source").getD PVal.none) then []
      else ["sling/" ++ pname ++ ": Missing \x27source\x27 in replication.yaml"])
    ++ (if truthy ((assocLookup (p :: rest) "target").getD PVal.none) then []
      else ["sling/" ++ pname ++ ": Missing \x27target\x27 in replication.yaml"])
    ++ ["sling/" ++ pname ++ ": Missing \x27streams\x27 in replication.yaml"], ?_, ?_⟩
  · simp only [replicationIssues]
    rw [if_pos (truthy_dict_of_ne_nil (List.cons_ne_nil p rest))]
    simp only [pyGet]
    rw [h]
    simp [Option.getD, truthy]
  · simp

/-- Claim C5: the validator flags a sling pipeline whose replication
descriptor (a parsed mapping) lacks a `streams` key, flags a dlt pipeline
whose program text lacks a `def run(` definition, and reports zero issues
for a complete well-formed pipeline of either tool. -/
theorem C5_validator_flags :
    (∀ (d : SlingDir) (rm : List (String × PVal)) (is1 : List String),
      d.replication_yaml = YamlFile.parsed (PVal.dict rm) →
      assocLookup rm "streams" = Option.none →
      validate_sling_pipeline d = Except.ok is1 →
      is1 ≠ [])
    ∧ (∀ (d : DltDir) (c : String) (is1 : List String),
      d.pipeline_py = TextFile.content c →
      strContains c "def run(" = false →
      validate_dlt_pipeline d = Except.ok is1 →
      ("dlt/" ++ d.name ++ ": pipeline.py missing run() function") ∈ is1)
    ∧ (∀ (d : DltDir) (m : List (String × PVal)) (c : String),
      d.dagster_yaml = YamlFile.parsed (PVal.dict m) →
      m ≠ [] →
      truthy ((assocLookup m "description").getD PVal.none) = true →
      scheduleCheckOk m = true →
      d.pipeline_py = TextFile.content c →
      strContains c "def run(" = true →
      validate_dlt_pipeline d = Except.ok [])
    ∧ (∀ (d : SlingDir) (m rm : List (String × PVal)),
      d.dagster_yaml = YamlFile.parsed (PVal.dict m) →
      m ≠ [] →
      truthy ((assocLookup m "description").getD PVal.none) = true →
      scheduleCheckOk m = true →
      d.replication_yaml = YamlFile.parsed (PVal.dict rm) →
      rm ≠ [] →
      truthy ((assocLookup rm "source").getD PVal.none) = true →
      truthy ((assocLookup rm "target").getD PVal.none) = true →
      truthy ((assocLookup rm "streams").getD PVal.none) = true →
      validate_sling_pipeline d = Except.ok []) := by
  refine ⟨?_, ?_, ?_, ?_⟩
  · intro d rm is1 hry hstrm hok
    unfold validate_sling_pipeline at hok
    cases hda : dagsterIssues "sling" d.name d.dagster_yaml with
    | error e =>
      rw [hda] at hok
      exact absurd hok (by simp)
    | ok i1 =>
      rw [hda, hry] at hok
      cases rm with
      | nil =>
        have hri : replicationIssues d.name (YamlFile.parsed (PVal.dict []))
            = Except.ok ["sling/" ++ d.name ++ ": Empty replication.yaml"] := rfl
        rw [hri] at hok
        simp only [Except.ok.injEq] at hok
        subst hok
        simp
      | cons p rest =>
        obtain ⟨l, hl, hmem⟩ := replicationIssues_nostreams_mem d.name p rest hstrm
        rw [hl] at hok
        simp only [Except.ok.injEq] at hok
        subst hok
        exact List.ne_nil_of_mem (List.mem_append_right _ hmem)
  · intro d c is1 hpy hrun hok
    unfold validate_dlt_pipeline at hok
    cases hda : dagsterIssues "dlt" d.name d.dagster_yaml with
    | error e =>
      rw [hda] at hok
      exact absurd hok (by simp)
    | ok i1 =>
      rw [hda] at hok
      simp only [Except.ok.injEq] at hok
      subst hok
      rw [hpy]
      exact List.mem_append_right _ (by simp [pipelinePyIssues, hrun])
  · intro d m c hdy hm hdesc hsch hpy hrun
    unfold validate_dlt_pipeline
    rw [hdy, dagsterIssues_wellformed "dlt" d.name m hm hdesc hsch, hpy]
    simp [pipelinePyIssues, hrun]
  · intro d m rm hdy hm hdesc hsch hry hrm hsrc htgt hstrm
    unfold validate_sling_pipeline
    rw [hdy, dagsterIssues_wellformed "sling" d.name m hm hdesc hsch,
      hry, replicationIssues_wellformed d.name rm hrm hsrc htgt hstrm]
    rfl

/-- Witness for C5 at four concrete pipeline directories. -/
theorem C5_validator_flags_witness :
    (["sling/ns: Missing \x27streams\x27 in replication.yaml"] : List String) ≠ []
    ∧ ("dlt/bad: pipeline.py missing run() function")
      ∈ ["dlt/bad: pipeline.py missing run() function"]
    ∧ validate_dlt_pipeline dlt_ok_dir = Except.ok []
    ∧ validate_sling_pipeline sling_ok_dir = Except.ok [] :=
  ⟨C5_validator_flags.1 sling_nostreams_dir
      [("source", PVal.str "POSTGRES"), ("target", PVal.str "BIGQUERY")]
      ["sling/ns: Missing \x27streams\x27 in replication.yaml"] rfl rfl rfl,
   C5_validator_flags.2.1 dlt_norun_dir "print(1)\n"
      ["dlt/bad: pipeline.py missing run() function"] rfl rfl rfl,
   C5_validator_flags.2.2.1 dlt_ok_dir
      [("enabled", PVal.bool true), ("description", PVal.str "demo pipeline")]
      "import dlt\n\ndef run(partition_key = None):\n    return None\n"
      rfl (by simp) rfl rfl rfl rfl,
   C5_validator_flags.2.2.2 sling_ok_dir
      [("enabled", PVal.bool true), ("description", PVal.str "demo pipeline")]
      [("source", PVal.str "POSTGRES"), ("target", PVal.str "BIGQUERY"),
       ("streams", PVal.dict [("public.users", PVal.dict [("object", PVal.str "bigquery.users")])])]
      rfl (by simp) rfl rfl rfl (by simp) rfl rfl rfl⟩

theorem dagsterIssues_benign (tool pname : String) (f : YamlFile)
    (h : dagsterBenign f = true) :
    ∃ l, dagsterIssues tool pname f = Except.ok l := by
  cases f with
  | missing => exact ⟨_, rfl⟩
  | parseError e => exact ⟨_, rfl⟩
  | parsed v =>
    by_cases htr : truthy v = true
    · cases v with
      | dict m =>
        simp only [dagsterBenign] at h
        unfold scheduleValueOk at h
        simp only [dagsterIssues]
        rw [if_pos htr]
        simp only [pyGet]
        cases hs : assocLookup m "schedule" with
        | none => exact ⟨_, rfl⟩
        | some sv =>
          rw [hs] at h
          cases sv with
          | dict sm =>
            simp only [Option.getD_some]
            by_cases hen : truthy ((assocLookup sm "enabled").getD PVal.none) = true
            · rw [if_pos hen]
              by_cases hcr : truthy ((assocLookup sm "cron_schedule").getD PVal.none) = true
              · rw [if_pos hcr]
                exact ⟨_, rfl⟩
              · rw [if_neg hcr]
                exact ⟨_, rfl⟩
            · rw [if_neg hen]
              exact ⟨_, rfl⟩
          | none => simp at h
          | bool b => simp at h
          | int n => simp at h
          | str s => simp at h
          | list xs => simp at h
      | none => simp [truthy] at htr
      | bool b =>
        simp only [dagsterBenign] at h
        rw [htr] at h
        simp at h
      | int n =>
        simp only [dagsterBenign] at h
        rw [htr] at h
        simp at h
      | str s =>
        simp only [dagsterBenign] at h
        rw [htr] at h
        simp at h
      | list xs =>
        simp only [dagsterBenign] at h
        rw [htr] at h
        simp at h
    · exact ⟨[tool ++ "/" ++ pname ++ ": Empty dagster.yaml"],
        by simp only [dagsterIssues]; rw [if_neg htr]⟩

theorem replicationIssues_benign (pname : String) (f : YamlFile)
    (h : replBenign f = true) :
    ∃ l, replicationIssues pname f = Except.ok l := by
  cases f with
  | missing => exact ⟨_, rfl⟩
  | parseError e => exact ⟨_, rfl⟩
  | parsed v =>
    by_cases htr : truthy v = true
    · cases v with
      | dict m =>
        simp only [replicationIssues]
        rw [if_pos htr]
        simp only [pyGet]
        exact ⟨_, rfl⟩
      | none => simp [truthy] at htr
      | bool b =>
        simp only [replBenign] at h
        rw [htr] at h
        simp at h
      | int n =>
        simp only [replBenign] at h
        rw [htr] at h
        simp at h
      | str s =>
        simp only [replBenign] at h
        rw [htr] at h
        simp at h
      | list xs =>
        simp only [replBenign] at h
        rw [htr] at h
        simp at h
    · exact ⟨["sling/" ++ pname ++ ": Empty replication.yaml"],
        by simp only [replicationIssues]; rw [if_neg htr]⟩

theorem validate_dlt_benign (d : DltDir) (h : dagsterBenign d.dagster_yaml = true) :
    ∃ l, validate_dlt_pipeline d = Except.ok l := by
  obtain ⟨l, hl⟩ := dagsterIssues_benign "dlt" d.name d.dagster_yaml h
  refine ⟨l ++ pipelinePyIssues d.name d.pipeline_py, ?_⟩
  unfold validate_dlt_pipeline
  rw [hl]

theorem validate_sling_benign (d : SlingDir) (h1 : dagsterBenign d.dagster_yaml = true)
    (h2 : replBenign d.replication_yaml = true) :
    ∃ l, validate_sling_pipeline d = Except.ok l := by
  obtain ⟨l, hl⟩ := dagsterIssues_benign "sling" d.name d.dagster_yaml h1
  obtain ⟨l2, hl2⟩ := replicationIssues_benign d.name d.replication_yaml h2
  refine ⟨l ++ l2, ?_⟩
  unfold validate_sling_pipeline
  rw [hl, hl2]

theorem collectValidate_ok {α : Type} (f : α → Except String (List String)) (l : List α)
    (h : ∀ d ∈ l, ∃ i, f d = Except.ok i) :
    ∃ i, collectValidate f l = Except.ok i := by
  induction l with
  | nil => exact ⟨[], rfl⟩
  | cons d ds ih =>
    obtain ⟨i, hi⟩ := h d (List.mem_cons_self d ds)
    obtain ⟨rest, hrest⟩ := ih (fun x hx => h x (List.mem_cons_of_mem d hx))
    refine ⟨i ++ rest, ?_⟩
    unfold collectValidate
    rw [hi, hrest]

/-- Claim C6 (amended): the validator never raises — returning every
malformation as an issue string — provided no YAML document has a truthy
non-mapping top-level value and every dagster.yaml `schedule` entry is a
mapping; outside that proviso an `AttributeError` escapes (see the
counterexample), aborting the batch scan. -/
theorem C6_validate_no_raise_amended :
    ∀ (dlts : List DltDir) (slings : List SlingDir),
      (∀ d ∈ dlts, dagsterBenign d.dagster_yaml = true) →
      (∀ s ∈ slings, dagsterBenign s.dagster_yaml = true ∧ replBenign s.replication_yaml = true) →
      ∃ issues, validate dlts slings = Except.ok issues := by
  intro dlts slings h1 h2
  obtain ⟨i1, hi1⟩ := collectValidate_ok validate_dlt_pipeline dlts
    (fun d hd => validate_dlt_benign d (h1 d hd))
  obtain ⟨i2, hi2⟩ := collectValidate_ok validate_sling_pipeline slings
    (fun s hs => validate_sling_benign s (h2 s hs).1 (h2 s hs).2)
  refine ⟨i1 ++ i2, ?_⟩
  unfold validate
  rw [hi1, hi2]

/-- Counterexample for C6 as stated: a pipeline whose dagster.yaml parses
to a truthy non-mapping (a YAML list) makes the validator raise an
uncaught `AttributeError` instead of collecting an issue string, aborting
the batch scan. -/
theorem C6_counterexample :
    validate [] [sling_crash_dir] = Except.error "AttributeError" := rfl

/-- Witness for C6 (amended) over a mixed batch of well-formed and
benignly malformed pipelines. -/
theorem C6_validate_no_raise_amended_witness :
    ∃ issues, validate [dlt_ok_dir, dlt_malformed_dir, dlt_norun_dir]
      [sling_ok_dir, sling_nostreams_dir] = Except.ok issues :=
  C6_validate_no_raise_amended
    [dlt_ok_dir, dlt_malformed_dir, dlt_norun_dir]
    [sling_ok_dir, sling_nostreams_dir]
    (by intro d hd; fin_cases hd <;> rfl)
    (by intro s hs; fin_cases hs <;> exact ⟨rfl, rfl⟩)
